import Mathlib

/-!
Shallow embedding of the drs_bot repository (Telegram university-section bot).

The embedding translates the Python source under `src/` into executable Lean
definitions:

* `src/helpers.py` — `CodeGenerator.generate_section_code`,
  `Validator.validate_full_name`, `Validator.validate_section_code`,
  `Validator.validate_telegram_id`, `PermissionChecker.check_user_permission`,
  `PermissionChecker.check_admin_section_permission`.
* `src/database.py` — `UserDatabase.create_user`, `UserDatabase.get_user`,
  `SectionDatabase.get_section_by_code`, `StudentDatabase.register_student`,
  `StudentDatabase.approve_student`, `StudentDatabase.reject_student`,
  `StudentDatabase.get_approved_students`,
  `NotificationDatabase.log_notification`.
* `src/bot.py` — `handle_registration_link`, `handle_student_name`,
  `handle_section_admin_input`, `send_assignment_notifications`.

The sqlite database is modelled as lists of row structures; `fetchone` on a
`WHERE` query becomes `List.find?`, `COUNT(*)` becomes `List.length` of a
`List.filter`, an `INSERT` appends a row, and an `UPDATE ... WHERE` maps over
the row list.  Python strings are modelled as `List Char`; `str.strip()` is
`trimL` below.  User-facing message strings are modelled by the inductive
`Msg`, one constructor per distinct literal message in the source (the Arabic
text of each message is recorded in a comment on its constructor).

Simplifications, all noted where they matter: timestamps
(`CURRENT_TIMESTAMP`) are modelled as a Bool "was set" flag or omitted; the
`activity_log` table (append-only audit, touched by no claim) is omitted; SQL
joins against `academic_levels` / `subjects` rows that exist by foreign-key
constraint are collapsed into the primary-table lookup; the `user_type` CHECK
constraint is enforced by typing the column with the `Role` inductive.
-/

namespace DrsBot

/-- Python strings are modelled as lists of characters. -/
abbrev Str := List Char

/-- Python `str.strip()`: drop whitespace from both ends. -/
def trimL (s : Str) : Str :=
  ((s.dropWhile Char.isWhitespace).reverse.dropWhile Char.isWhitespace).reverse

/-- Python `str.isdigit()` restricted to ASCII digits: non-empty and all digits. -/
def pyIsDigit (s : Str) : Bool :=
  !s.isEmpty && s.all Char.isDigit

/-- Python `int(...)` on an all-digit string. -/
def digitsToNat (s : Str) : Nat :=
  s.foldl (fun n c => n * 10 + (c.toNat - '0'.toNat)) 0

/-- The `user_type` column of the `users` table
(`CHECK(user_type IN ('owner', 'admin', 'student'))` in `create_database.py`). -/
inductive Role
  | owner
  | admin
  | student
  deriving DecidableEq, Repr

/-- The `registration_status` column of `student_sections`
(`CHECK(registration_status IN ('pending', 'approved', 'rejected'))`). -/
inductive RegStatus
  | pending
  | approved
  | rejected
  deriving DecidableEq, Repr

/-- The `delivery_status` column of `assignment_notifications`
(sent / failed / blocked). -/
inductive DeliveryStatus
  | sent
  | failed
  | blocked
  deriving DecidableEq, Repr

/-- One constructor per distinct user-facing message string in the source.
The Arabic literal each constructor stands for is given in its comment. -/
inductive Msg
  | invalidTelegramId    -- "معرف تلغرام غير صحيح"
  | nameEmpty            -- "الاسم فارغ"
  | nameTooShort         -- "الاسم قصير جداً (أقل من 3 أحرف)"
  | nameTooLong          -- "الاسم طويل جداً (أكثر من 100 حرف)"
  | duplicateUser        -- "المستخدم موجود مسبقاً"
  | userCreated          -- "تم إنشاء المستخدم بنجاح"
  | invalidSectionCode   -- "كود الشعبة غير صحيح"
  | sectionFull          -- "الشعبة ممتلئة"
  | userInfoError        -- "خطأ في الحصول على معلومات المستخدم"
  | alreadyPending       -- "لديك طلب تسجيل معلق"
  | alreadyEnrolled      -- "أنت مسجل بالفعل في هذه الشعبة"
  | previouslyRejected   -- "تم رفض طلبك سابقاً. تواصل مع الأدمن"
  | registrationSent     -- "تم إرسال طلب التسجيل بنجاح"
  | userNotFound         -- "المستخدم غير موجود"
  | accountInactive      -- "الحساب غير نشط"
  | userBlocked          -- "أنت محظور من استخدام البوت"
  | needRole (r : Role)  -- "تحتاج إلى صلاحية {required_type}"
  | adminNotFound        -- "الأدمن غير موجود"
  | studentNotFound      -- "الطالب غير موجود"
  | sectionNotFound      -- "الشعبة غير موجودة"
  | notSectionAdmin      -- "ليس لديك صلاحية على هذه الشعبة"
  | alreadyProcessed     -- "الطلب غير موجود أو تمت معالجته مسبقاً"
  | approvedOk           -- "تمت الموافقة على الطالب بنجاح"
  | rejectedOk           -- "تم رفض الطالب"
  | notifLogged          -- "تم تسجيل الإشعار"
  deriving DecidableEq, Repr

/-- A row of the `users` table (`create_database.py`, lines 74-85).
`telegram_id` is `INTEGER UNIQUE NOT NULL`; `is_active` defaults to 1 and
`is_blocked` to 0. -/
structure UserRow where
  userId : Nat
  telegramId : Int
  username : Option Str
  fullName : Str
  userType : Role
  isActive : Bool
  isBlocked : Bool
  deriving DecidableEq, Repr

/-- A row of the `sections` table (`create_database.py`, lines 104-119).
`admin_id` is a nullable foreign key into `users`. -/
structure SectionRow where
  sectionId : Nat
  sectionName : Str
  levelId : Nat
  adminId : Option Nat
  joinCode : Str
  maxStudents : Nat
  isActive : Bool
  deriving DecidableEq, Repr

/-- A row of the `student_sections` table (`create_database.py`, lines
126-141).  `approvedAtSet` models whether the nullable `approved_at`
timestamp column has been filled by `CURRENT_TIMESTAMP`. -/
structure MemRow where
  studentId : Nat
  sectionId : Nat
  status : RegStatus
  approvedAtSet : Bool
  approvedBy : Option Nat
  isActive : Bool
  deriving DecidableEq, Repr

/-- A row of the `assignments` table; only the columns the modelled
operations read are kept. -/
structure AssignmentRow where
  assignmentId : Nat
  sectionId : Nat
  deriving DecidableEq, Repr

/-- A row of the `assignment_notifications` table (the NotificationRecord).
The `notification_type` column is a free-form string in the source
(`'new'`/`'edit'`/`'delete'`/`'reminder'`). -/
structure NotifRow where
  assignmentId : Nat
  studentId : Nat
  notifType : Str
  deliveryStatus : DeliveryStatus
  deriving DecidableEq, Repr

/-- The relational store: one list per table, plus the AUTOINCREMENT counter
for `users.user_id` (`cursor.lastrowid`). -/
structure DB where
  users : List UserRow
  sections : List SectionRow
  memberships : List MemRow
  assignments : List AssignmentRow
  notifications : List NotifRow
  nextUserId : Nat
  deriving DecidableEq, Repr

/-- `Validator.validate_telegram_id` (`helpers.py` 398-408): a telegram id is
valid iff it is a positive integer. -/
def validate_telegram_id (telegramId : Int) : Bool :=
  decide (telegramId > 0)

/-- `Validator.validate_full_name` (`helpers.py` 429-448).  Returns the
Python `(is_valid, error)` pair; the error is `none` when valid.  Note the
length checks are on the *raw* argument, only the emptiness check strips. -/
def validate_full_name (fullName : Str) : Bool × Option Msg :=
  if fullName = [] ∨ trimL fullName = [] then (false, some .nameEmpty)
  else if fullName.length < 3 then (false, some .nameTooShort)
  else if fullName.length > 100 then (false, some .nameTooLong)
  else (true, none)

/-- Character class `[a-zA-Z0-9]` of the join-code pattern. -/
def isCodeChar (c : Char) : Bool :=
  c.isAlpha || c.isDigit

/-- `Validator.validate_section_code` (`helpers.py` 451-463): full match of
`^SEC_[a-zA-Z0-9]{12}$`. -/
def validate_section_code (code : Str) : Bool :=
  decide (code.take 4 = ['S', 'E', 'C', '_'])
    && decide ((code.drop 4).length = 12)
    && (code.drop 4).all isCodeChar

/-- Alphabet of `secrets.token_urlsafe`: `[A-Za-z0-9-_]`. -/
def isUrlsafeChar (c : Char) : Bool :=
  c.isAlpha || c.isDigit || decide (c = '-') || decide (c = '_')

/-- The character replacement in `CodeGenerator.generate_section_code`
(`helpers.py` 37): `-` becomes `x` and `_` becomes `y`. -/
def swapSpecial (c : Char) : Char :=
  if c = '-' then 'x' else if c = '_' then 'y' else c

/-- `CodeGenerator.generate_section_code` (`helpers.py` 21-38) with the
default `length = 12`.  `entropy` stands for the string returned by
`secrets.token_urlsafe(12)` (16 characters over the urlsafe alphabet); the
source truncates it to 12 characters, replaces the two non-alphanumeric
alphabet characters, and prepends `SEC_`. -/
def generate_section_code (entropy : Str) : Str :=
  ['S', 'E', 'C', '_'] ++ (entropy.take 12).map swapSpecial

/-- `UserDatabase.get_user` (`database.py` 126-153): `fetchone` on
`SELECT * FROM users WHERE telegram_id = ?`. -/
def get_user (db : DB) (telegramId : Int) : Option UserRow :=
  db.users.find? (fun u => decide (u.telegramId = telegramId))

/-- `PermissionChecker.check_user_permission` (`helpers.py` 514-565).
Checks run in source order: unknown user, inactive, blocked, owner
short-circuit, exact role match. -/
def check_user_permission (db : DB) (telegramId : Int) (requiredType : Role) :
    Bool × Option Msg :=
  match get_user db telegramId with
  | none => (false, some .userNotFound)
  | some u =>
    if !u.isActive then (false, some .accountInactive)
    else if u.isBlocked then (false, some .userBlocked)
    else if u.userType = .owner then (true, none)
    else if u.userType = requiredType then (true, none)
    else (false, some (.needRole requiredType))

/-- `PermissionChecker.check_admin_section_permission` (`helpers.py`
568-625): owner passes on any section; otherwise the caller must be the
section's `admin_id`; unknown user and unknown section are distinct
failures. -/
def check_admin_section_permission (db : DB) (telegramId : Int)
    (sectionId : Nat) : Bool × Option Msg :=
  match get_user db telegramId with
  | none => (false, some .userNotFound)
  | some u =>
    if u.userType = .owner then (true, none)
    else
      match db.sections.find? (fun s => decide (s.sectionId = sectionId)) with
      | none => (false, some .sectionNotFound)
      | some sec =>
        if sec.adminId = some u.userId then (true, none)
        else (false, some .notSectionAdmin)

/-- Result of `UserDatabase.create_user`: the (possibly updated) store plus
the Python `(success, message, user_id)` triple. -/
structure CreateUserResult where
  db : DB
  ok : Bool
  msg : Msg
  userId : Option Nat
  deriving DecidableEq, Repr

/-- `UserDatabase.create_user` (`database.py` 63-123).  Validates the
telegram id and the full name, then refuses a duplicate `telegram_id`
returning the existing row's `user_id`, else inserts with the next
AUTOINCREMENT id.  The `user_type not in [...]` check of the source is
enforced here by the `Role` type of the argument. -/
def create_user (db : DB) (telegramId : Int) (fullName : Str)
    (userType : Role) (username : Option Str) : CreateUserResult :=
  if !validate_telegram_id telegramId then
    ⟨db, false, .invalidTelegramId, none⟩
  else
    let v := validate_full_name fullName
    if !v.1 then ⟨db, false, v.2.getD .nameEmpty, none⟩
    else
      match get_user db telegramId with
      | some existing => ⟨db, false, .duplicateUser, some existing.userId⟩
      | none =>
        let uid := db.nextUserId
        ⟨{ db with
            users := db.users ++ [⟨uid, telegramId, username, fullName, userType, true, false⟩],
            nextUserId := uid + 1 },
          true, .userCreated, some uid⟩

/-- `SectionDatabase.get_section_by_code` (`database.py` 438-468): `fetchone`
on `join_code = ? AND is_active = 1`.  The source additionally joins
`academic_levels` for the level name; the join row exists by foreign key and
is not modelled.  `StudentDatabase.register_student` runs the same filtered
lookup (`database.py` 599-604). -/
def get_section_by_code (db : DB) (joinCode : Str) : Option SectionRow :=
  db.sections.find? (fun s => decide (s.joinCode = joinCode) && s.isActive)

/-- The `COUNT(*)` of `database.py` 612-615: approved registrations of a
section (no `is_active` filter there). -/
def approved_count (db : DB) (sectionId : Nat) : Nat :=
  (db.memberships.filter (fun m =>
    decide (m.sectionId = sectionId) && decide (m.status = RegStatus.approved))).length

/-- Result of a database mutation returning the Python `(success, message)`
pair. -/
structure OpResult where
  db : DB
  ok : Bool
  msg : Msg
  deriving DecidableEq, Repr

/-- `StudentDatabase.register_student` (`database.py` 570-675).  Order of
checks, as in the source: name validation, active-section lookup by join
code, capacity (`approved_count ≥ max_students`), user creation (a
pre-existing user is tolerated: the source tests the message for the
substring "موجود مسبقاً", which among `create_user`'s messages only the
duplicate-user message contains), `user_id` recovery on a falsy id (Python
`if not user_id` — also true for id 0), duplicate-membership short-circuit
with a status-specific message, and finally the `pending` insert. -/
def register_student (db : DB) (telegramId : Int) (fullName : Str)
    (sectionCode : Str) (username : Option Str) : OpResult :=
  let v := validate_full_name fullName
  if !v.1 then ⟨db, false, v.2.getD .nameEmpty⟩
  else
    match get_section_by_code db sectionCode with
    | none => ⟨db, false, .invalidSectionCode⟩
    | some sec =>
      if approved_count db sec.sectionId ≥ sec.maxStudents then
        ⟨db, false, .sectionFull⟩
      else
        let cr := create_user db telegramId fullName .student username
        if !cr.ok ∧ cr.msg ≠ .duplicateUser then ⟨cr.db, false, cr.msg⟩
        else
          let uidOpt :=
            if cr.userId = none ∨ cr.userId = some 0 then
              (get_user cr.db telegramId).map (·.userId)
            else cr.userId
          match uidOpt with
          | none => ⟨cr.db, false, .userInfoError⟩
          | some uid =>
            match cr.db.memberships.find? (fun m =>
                decide (m.studentId = uid) && decide (m.sectionId = sec.sectionId)) with
            | some existing =>
              match existing.status with
              | .pending => ⟨cr.db, false, .alreadyPending⟩
              | .approved => ⟨cr.db, false, .alreadyEnrolled⟩
              | .rejected => ⟨cr.db, false, .previouslyRejected⟩
            | none =>
              ⟨{ cr.db with
                  memberships := cr.db.memberships ++
                    [⟨uid, sec.sectionId, .pending, false, none, true⟩] },
                true, .registrationSent⟩

/-- The `WHERE` clause of the approval / rejection `UPDATE` (`database.py`
724-730 and 800-804): same student, same section, currently `pending`. -/
def pendingMatch (studentId sectionId : Nat) (m : MemRow) : Bool :=
  decide (m.studentId = studentId) && decide (m.sectionId = sectionId)
    && decide (m.status = RegStatus.pending)

/-- `StudentDatabase.approve_student` (`database.py` 677-751).  Permission
gate first, then the two user lookups, then the guarded `UPDATE`; a zero
rowcount reports the request as missing or already processed. -/
def approve_student (db : DB) (adminTelegramId studentTelegramId : Int)
    (sectionId : Nat) : OpResult :=
  let perm := check_admin_section_permission db adminTelegramId sectionId
  if !perm.1 then ⟨db, false, perm.2.getD .notSectionAdmin⟩
  else
    match get_user db adminTelegramId with
    | none => ⟨db, false, .adminNotFound⟩
    | some adminRow =>
      match get_user db studentTelegramId with
      | none => ⟨db, false, .studentNotFound⟩
      | some studentRow =>
        if (db.memberships.filter (pendingMatch studentRow.userId sectionId)).length = 0 then
          ⟨db, false, .alreadyProcessed⟩
        else
          ⟨{ db with
              memberships := db.memberships.map (fun m =>
                if pendingMatch studentRow.userId sectionId m then
                  { m with status := .approved, approvedAtSet := true,
                           approvedBy := some adminRow.userId }
                else m) },
            true, .approvedOk⟩

/-- `StudentDatabase.reject_student` (`database.py` 753-825); identical
shape to approval but the `UPDATE` only sets `registration_status`. -/
def reject_student (db : DB) (adminTelegramId studentTelegramId : Int)
    (sectionId : Nat) : OpResult :=
  let perm := check_admin_section_permission db adminTelegramId sectionId
  if !perm.1 then ⟨db, false, perm.2.getD .notSectionAdmin⟩
  else
    match get_user db adminTelegramId with
    | none => ⟨db, false, .adminNotFound⟩
    | some _ =>
      match get_user db studentTelegramId with
      | none => ⟨db, false, .studentNotFound⟩
      | some studentRow =>
        if (db.memberships.filter (pendingMatch studentRow.userId sectionId)).length = 0 then
          ⟨db, false, .alreadyProcessed⟩
        else
          ⟨{ db with
              memberships := db.memberships.map (fun m =>
                if pendingMatch studentRow.userId sectionId m then
                  { m with status := .rejected }
                else m) },
            true, .rejectedOk⟩

/-- `StudentDatabase.get_approved_students` (`database.py` 859-890): the
join of approved, membership-active `student_sections` rows with their
non-blocked `users` rows.  The source's `ORDER BY full_name` only permutes
the result and is not modelled. -/
def get_approved_students (db : DB) (sectionId : Nat) : List UserRow :=
  db.memberships.filterMap (fun m =>
    if decide (m.sectionId = sectionId) && decide (m.status = RegStatus.approved)
        && m.isActive then
      match db.users.find? (fun u => decide (u.userId = m.studentId)) with
      | some u => if !u.isBlocked then some u else none
      | none => none
    else none)

/-- `NotificationDatabase.log_notification` (`database.py` 1302-1349):
resolve the student's `user_id` from the telegram id, then append one
`assignment_notifications` row. -/
def log_notification (db : DB) (assignmentId : Nat) (studentTelegramId : Int)
    (notificationType : Str) (deliveryStatus : DeliveryStatus) : OpResult :=
  match get_user db studentTelegramId with
  | none => ⟨db, false, .studentNotFound⟩
  | some u =>
    ⟨{ db with
        notifications := db.notifications ++
          [⟨assignmentId, u.userId, notificationType, deliveryStatus⟩] },
      true, .notifLogged⟩

/-- The conversation states of `BotStates` (`bot.py` 56-74) that the
modelled handlers use. -/
inductive BotState
  | waiting_for_name
  | create_section_level
  | create_section_type
  | create_section_division
  | create_section_admin
  deriving DecidableEq, Repr

/-- The per-(user, chat) scratch data bag (`bot.retrieve_data`): a
string-keyed dict in the source, modelled as one optional field per key the
handlers read or write. -/
structure SessionData where
  section_code : Option Str
  section_name : Option Str
  level_id : Option Nat
  level_name : Option Str
  study_type : Option Str
  division : Option Str
  admin_telegram_id : Option Int
  admin_name : Option Str
  deriving DecidableEq, Repr

/-- The empty data bag a fresh session starts with. -/
def emptyData : SessionData :=
  ⟨none, none, none, none, none, none, none, none⟩

/-- One conversation session of the in-memory state storage: current state
plus data bag.  `none` at the call sites below means no session exists for
the (user, chat) key. -/
structure Session where
  state : BotState
  data : SessionData
  deriving DecidableEq, Repr

/-- The three ways `handle_registration_link` can answer. -/
inductive LinkOutcome
  | invalidCode          -- "كود الشعبة غير صحيح أو منتهي الصلاحية"
  | roleRefused (r : Role) -- "لا يمكنك التسجيل كطالب. أنت ..."
  | promptForName        -- section info + "للتسجيل، أرسل اسمك الكامل:"
  deriving DecidableEq, Repr

/-- Result of `handle_registration_link`: the session slot after the call
(the handler never touches the database) and the reply sent. -/
structure LinkResult where
  session : Option Session
  outcome : LinkOutcome
  deriving DecidableEq, Repr

/-- The role test of `bot.py` 397-404: the requester exists and already has
role owner or admin. -/
def link_refused_role (db : DB) (telegramId : Int) : Bool :=
  match get_user db telegramId with
  | some u => decide (u.userType = Role.owner) || decide (u.userType = Role.admin)
  | none => false

/-- `handle_registration_link` (`bot.py` 374-436).  Unknown or inactive join
code rejects without touching the session; an owner/admin requester is
refused; otherwise the session enters `waiting_for_name` with the join code
and section name stored in the data bag. -/
def handle_registration_link (db : DB) (session : Option Session)
    (telegramId : Int) (code : Str) : LinkResult :=
  match get_section_by_code db code with
  | none => ⟨session, .invalidCode⟩
  | some sec =>
    match get_user db telegramId with
    | some u =>
      if u.userType = .owner ∨ u.userType = .admin then
        ⟨session, .roleRefused u.userType⟩
      else
        ⟨some ⟨.waiting_for_name,
          { (session.map (·.data)).getD emptyData with
              section_code := some code, section_name := some sec.sectionName }⟩,
          .promptForName⟩
    | none =>
      ⟨some ⟨.waiting_for_name,
        { (session.map (·.data)).getD emptyData with
            section_code := some code, section_name := some sec.sectionName }⟩,
        .promptForName⟩

/-- The replies of `handle_student_name`. -/
inductive NameOutcome
  | reprompt (e : Msg)   -- "❌ {error}\n\nالرجاء إدخال اسمك الكامل مرة أخرى:"
  | sessionError         -- "❌ حدث خطأ. الرجاء استخدام رابط التسجيل مرة أخرى."
  | success              -- Config.Messages.SUCCESS_REGISTRATION_SENT
  | failure (m : Msg)    -- "❌ {msg}"
  deriving DecidableEq, Repr

/-- Result of `handle_student_name`. -/
structure NameResult where
  db : DB
  session : Option Session
  outcome : NameOutcome
  deriving DecidableEq, Repr

/-- `handle_student_name` (`bot.py` 439-531), the `waiting_for_name` step.
The input is stripped, validated; an invalid name re-prompts leaving the
session untouched.  A valid name with a session that lost its `section_code`
tears the session down; otherwise `register_student` runs and the session is
deleted whether it succeeded or not (`bot.py` 523).  The admin-notification
side messages (`bot.py` 483-516) do not change the store or session and are
not modelled. -/
def handle_student_name (db : DB) (session : Session) (telegramId : Int)
    (username : Option Str) (text : Str) : NameResult :=
  let full_name := trimL text
  let v := validate_full_name full_name
  if !v.1 then ⟨db, some session, .reprompt (v.2.getD .nameEmpty)⟩
  else
    match session.data.section_code with
    | none => ⟨db, none, .sessionError⟩
    | some code =>
      let r := register_student db telegramId full_name code username
      if r.ok then ⟨r.db, none, .success⟩
      else ⟨r.db, none, .failure r.msg⟩

/-- The cancel sentinel of `bot.py` 828 (the reply-keyboard cancel button
text). -/
def cancelText : Str := "❌ إلغاء".toList

/-- The replies of `handle_section_admin_input`. -/
inductive AdminInputOutcome
  | cancelled              -- "❌ تم إلغاء عملية إنشاء الشعبة"
  | repromptNotDigit       -- "❌ معرف تلغرام يجب أن يكون رقماً صحيحاً ..."
  | repromptInvalidId      -- "❌ {error}\n\nالرجاء إدخال معرف تلغرام صحيح:"
  | repromptSelf           -- "❌ لا يمكنك تعيين نفسك كأدمن ..."
  | repromptCreateFailed (m : Msg) -- "❌ خطأ في إنشاء حساب الأدمن: {msg} ..."
  | summary                -- the section summary + confirm/cancel buttons
  deriving DecidableEq, Repr

/-- Result of `handle_section_admin_input`. -/
structure AdminInputResult where
  db : DB
  session : Option Session
  outcome : AdminInputOutcome
  deriving DecidableEq, Repr

/-- `handle_section_admin_input` (`bot.py` 817-954), the `adminId` step of
the section-creation wizard.  Branch order as in the source: cancel
sentinel, `isdigit`, `validate_telegram_id`, self-assignment, then admin
lookup with auto-provisioning of a missing admin via `create_user` (name
`Admin_<id>`), storing the admin in the data bag.  The state itself stays
`create_section_admin`; confirmation is a separate callback. -/
def handle_section_admin_input (db : DB) (session : Session)
    (telegramId : Int) (text : Str) : AdminInputResult :=
  let admin_input := trimL text
  if admin_input = cancelText then ⟨db, none, .cancelled⟩
  else if !pyIsDigit admin_input then ⟨db, some session, .repromptNotDigit⟩
  else
    let admin_telegram_id : Int := (digitsToNat admin_input : Int)
    if !validate_telegram_id admin_telegram_id then
      ⟨db, some session, .repromptInvalidId⟩
    else if admin_telegram_id = telegramId then ⟨db, some session, .repromptSelf⟩
    else
      match get_user db admin_telegram_id with
      | some adminUser =>
        ⟨db, some { session with data :=
            { session.data with admin_telegram_id := some admin_telegram_id,
                                admin_name := some adminUser.fullName } },
          .summary⟩
      | none =>
        let adminName : Str := ("Admin_" ++ toString admin_telegram_id).toList
        let cr := create_user db admin_telegram_id adminName .admin none
        if cr.ok then
          ⟨cr.db, some { session with data :=
              { session.data with admin_telegram_id := some admin_telegram_id,
                                  admin_name := some adminName } },
            .summary⟩
        else ⟨cr.db, some session, .repromptCreateFailed cr.msg⟩

/-- Outcome of one `bot.send_message` attempt towards a recipient, as
`send_assignment_notifications` classifies it (`bot.py` 1540-1565): success,
an exception whose text contains "blocked", or any other exception. -/
inductive SendOutcome
  | ok
  | errBlocked
  | errOther
  deriving DecidableEq, Repr

/-- The delivery status `send_assignment_notifications` records for one
transport outcome. -/
def classifyOutcome : SendOutcome → DeliveryStatus
  | .ok => .sent
  | .errBlocked => .blocked
  | .errOther => .failed

/-- The `assignment_notifications` row one loop iteration of
`send_assignment_notifications` appends for recipient `st` (via
`log_notification`, which resolves the student's `user_id` from the
`users` table). -/
def recordFor (users : List UserRow) (assignmentId : Nat) (ntype : Str)
    (transport : Int → SendOutcome) (st : UserRow) : NotifRow :=
  { assignmentId := assignmentId,
    studentId := ((users.find? (fun u => decide (u.telegramId = st.telegramId))).map
      (·.userId)).getD 0,
    notifType := ntype,
    deliveryStatus := classifyOutcome (transport st.telegramId) }

/-- Result of a dispatch run: final store plus the `stats` dict. -/
structure DispatchResult where
  db : DB
  sent : Nat
  failed : Nat
  blocked : Nat
  deriving DecidableEq, Repr

/-- The per-recipient loop of `send_assignment_notifications` (`bot.py`
1538-1573): every outcome is logged through `log_notification` and counted
in exactly one of the three counters; the inter-send pacing delay has no
store effect and is not modelled. -/
def notifyLoop (transport : Int → SendOutcome) (assignmentId : Nat)
    (ntype : Str) : DB → List UserRow → Nat → Nat → Nat → DispatchResult
  | db, [], s, f, b => ⟨db, s, f, b⟩
  | db, st :: rest, s, f, b =>
    match transport st.telegramId with
    | .ok =>
      notifyLoop transport assignmentId ntype
        (log_notification db assignmentId st.telegramId ntype .sent).db
        rest (s + 1) f b
    | .errBlocked =>
      notifyLoop transport assignmentId ntype
        (log_notification db assignmentId st.telegramId ntype .blocked).db
        rest s f (b + 1)
    | .errOther =>
      notifyLoop transport assignmentId ntype
        (log_notification db assignmentId st.telegramId ntype .failed).db
        rest s (f + 1) b

/-- `send_assignment_notifications` (`bot.py` 1484-1580).  A missing
assignment or an empty recipient set returns all-zero counts without
touching the store; otherwise the loop runs over the approved, non-blocked,
membership-active recipients.  The message-template branch on `ntype`
(`bot.py` 1518-1535) only selects text and is not modelled. -/
def send_assignment_notifications (db : DB) (transport : Int → SendOutcome)
    (assignmentId sectionId : Nat) (ntype : Str) : DispatchResult :=
  match db.assignments.find? (fun a => decide (a.assignmentId = assignmentId)) with
  | none => ⟨db, 0, 0, 0⟩
  | some _ =>
    let students := get_approved_students db sectionId
    if students = [] then ⟨db, 0, 0, 0⟩
    else notifyLoop transport assignmentId ntype db students 0 0 0

/-- The status-specific duplicate-registration message of `database.py`
644-651. -/
def statusMsg : RegStatus → Msg
  | .pending => .alreadyPending
  | .approved => .alreadyEnrolled
  | .rejected => .previouslyRejected

/-- A transport in which every delivery succeeds. -/
def okTransport : Int → SendOutcome := fun _ => .ok

/-- Concrete store: one approved, active, non-blocked student (user 1,
telegram 100) in section 3, one assignment 7 for that section. -/
def db1 : DB :=
  ⟨[⟨1, 100, none, "Ali Hassan".toList, .student, true, false⟩],
   [⟨3, "المرحلة الأولى - صباحي - شعبة A".toList, 1, some 1, "SEC_aaaabbbbcccc".toList, 50, true⟩],
   [⟨1, 3, .approved, true, some 1, true⟩],
   [⟨7, 3⟩], [], 2⟩

/-- Concrete store: student (user 1, telegram 10) already approved in
section 1, whose `max_students` is 1 — the section is exactly at
capacity and the student occupies the slot. -/
def db2 : DB :=
  ⟨[⟨1, 10, none, "Ali Hassan".toList, .student, true, false⟩],
   [⟨1, "المرحلة الأولى - صباحي - شعبة A".toList, 1, some 1, "SEC_abcdefghijkl".toList, 1, true⟩],
   [⟨1, 1, .approved, true, some 1, true⟩],
   [], [], 2⟩

/-- Concrete store: student (user 1, telegram 10) with a pending membership
in section 1, which still has room (`max_students` 5, no approved rows). -/
def db2w : DB :=
  ⟨[⟨1, 10, none, "Ali Hassan".toList, .student, true, false⟩],
   [⟨1, "المرحلة الأولى - صباحي - شعبة A".toList, 1, some 2, "SEC_abcdefghijkl".toList, 5, true⟩],
   [⟨1, 1, .pending, false, none, true⟩],
   [], [], 2⟩

/-- Concrete store: admin (user 1, telegram 100) responsible for section 1,
student (user 2, telegram 200) whose membership was already approved — the
stale-message double-tap scenario. -/
def db3 : DB :=
  ⟨[⟨1, 100, none, "Admin One".toList, .admin, true, false⟩,
    ⟨2, 200, none, "Ali Hassan".toList, .student, true, false⟩],
   [⟨1, "المرحلة الأولى - صباحي - شعبة A".toList, 1, some 1, "SEC_abcdefghijkl".toList, 50, true⟩],
   [⟨2, 1, .approved, true, some 1, true⟩],
   [], [], 3⟩

/-- Concrete store: a single active, unblocked admin (telegram 50). -/
def db5 : DB :=
  ⟨[⟨1, 50, none, "Admin One".toList, .admin, true, false⟩], [], [], [], [], 2⟩

/-- Concrete store: one active section with a valid join code and no user
row for the requester. -/
def db6 : DB :=
  ⟨[], [⟨1, "المرحلة الأولى - صباحي - شعبة A".toList, 1, some 1, "SEC_abcdefghijkl".toList, 50, true⟩],
   [], [], [], 1⟩

/-- Concrete store: an existing user with telegram id 5. -/
def db9 : DB :=
  ⟨[⟨1, 5, none, "Omar Ali".toList, .student, true, false⟩], [], [], [], [], 2⟩

/-- The empty store. -/
def db0 : DB := ⟨[], [], [], [], [], 1⟩

/-! ## Lemmas about trimming -/

theorem trimL_eq_rdrop (l : Str) :
    trimL l = (l.dropWhile Char.isWhitespace).rdropWhile Char.isWhitespace :=
  rfl

theorem dropWhile_first_false {α : Type} {p : α → Bool} :
    ∀ {l : List α} {a : α} {r : List α}, l.dropWhile p = a :: r → p a = false := by
  intro l
  induction l with
  | nil => intro a r h; simp [List.dropWhile] at h
  | cons b t ih =>
    intro a r h
    rw [List.dropWhile_cons] at h
    by_cases hb : p b
    · rw [if_pos hb] at h; exact ih h
    · rw [if_neg hb] at h
      injection h with h1 _
      subst h1
      exact Bool.eq_false_iff.mpr hb

theorem trimL_trimL (l : Str) : trimL (trimL l) = trimL l := by
  rw [trimL_eq_rdrop l, trimL_eq_rdrop]
  have hstep : ((l.dropWhile Char.isWhitespace).rdropWhile Char.isWhitespace).dropWhile
      Char.isWhitespace = (l.dropWhile Char.isWhitespace).rdropWhile Char.isWhitespace := by
    cases hR : (l.dropWhile Char.isWhitespace).rdropWhile Char.isWhitespace with
    | nil => simp
    | cons b r =>
      have hpre := List.rdropWhile_prefix Char.isWhitespace (l.dropWhile Char.isWhitespace)
      rw [hR] at hpre
      obtain ⟨s, hs⟩ := hpre
      have hA : l.dropWhile Char.isWhitespace = b :: (r ++ s) := by
        rw [← hs]; simp
      have hb : Char.isWhitespace b = false := dropWhile_first_false hA
      rw [List.dropWhile_cons, if_neg (by simp [hb])]
  rw [hstep, List.rdropWhile_idempotent]

theorem trimL_ne_nil_of_length (l : Str) (h : 3 ≤ (trimL l).length) :
    trimL (trimL l) ≠ [] := by
  rw [trimL_trimL]
  intro hc
  rw [hc] at h
  simp at h

/-! ## C7: registration name validation -/

/-- Claim C7: the registration name validation (the stripped input of
`handle_student_name` run through `Validator.validate_full_name`) accepts an
input iff its trimmed form has length between 3 and 100 inclusive. -/
theorem registration_name_accepts_iff_trimmed_length (text : Str) :
    (validate_full_name (trimL text)).1 = true ↔
      3 ≤ (trimL text).length ∧ (trimL text).length ≤ 100 := by
  unfold validate_full_name
  split_ifs with h1 h2 h3
  · constructor
    · intro hc; exact absurd hc (by decide)
    · rintro ⟨h3le, _⟩
      rcases h1 with he | he
      · rw [he] at h3le; simp at h3le
      · exact absurd he (trimL_ne_nil_of_length text h3le)
  · constructor
    · intro hc; exact absurd hc (by decide)
    · rintro ⟨h3le, _⟩; omega
  · constructor
    · intro hc; exact absurd hc (by decide)
    · rintro ⟨_, hle⟩; omega
  · constructor
    · intro _; omega
    · intro _; rfl

/-- Witness for C7 at a concrete input with surrounding whitespace. -/
theorem registration_name_accepts_iff_trimmed_length_witness :
    (validate_full_name (trimL "  Ali Hassan  ".toList)).1 = true :=
  (registration_name_accepts_iff_trimmed_length ("  Ali Hassan  ".toList)).mpr (by decide)

/-! ## C8: generated join codes pass the join-code validator -/

theorem swapSpecial_isCodeChar {c : Char} (h : isUrlsafeChar c = true) :
    isCodeChar (swapSpecial c) = true := by
  unfold isUrlsafeChar at h
  unfold swapSpecial isCodeChar
  by_cases h1 : c = '-'
  · rw [if_pos h1]; decide
  · rw [if_neg h1]
    by_cases h2 : c = '_'
    · rw [if_pos h2]; decide
    · rw [if_neg h2]
      simp only [Bool.or_eq_true, decide_eq_true_eq] at h
      rcases h with ((h | h) | h) | h
      · simp [h]
      · simp [h]
      · exact absurd h h1
      · exact absurd h h2

/-- Claim C8: every code produced by `generate_section_code` from a
`token_urlsafe` entropy string of length at least 12 is `SEC_` followed by
exactly 12 alphanumerics, hence accepted by `validate_section_code`. -/
theorem generated_code_matches_validator (entropy : Str)
    (halpha : entropy.all isUrlsafeChar = true) (hlen : 12 ≤ entropy.length) :
    validate_section_code (generate_section_code entropy) = true := by
  unfold generate_section_code validate_section_code
  have htake : (['S', 'E', 'C', '_'] ++ (entropy.take 12).map swapSpecial).take 4
      = ['S', 'E', 'C', '_'] := by
    simp [List.take]
  have hdrop : (['S', 'E', 'C', '_'] ++ (entropy.take 12).map swapSpecial).drop 4
      = (entropy.take 12).map swapSpecial := by
    simp [List.drop]
  rw [htake, hdrop]
  have hlen12 : ((entropy.take 12).map swapSpecial).length = 12 := by
    rw [List.length_map, List.length_take]
    omega
  have hall : ((entropy.take 12).map swapSpecial).all isCodeChar = true := by
    rw [List.all_eq_true]
    intro x hx
    rw [List.mem_map] at hx
    obtain ⟨c, hc, rfl⟩ := hx
    have hcmem : c ∈ entropy := List.take_subset 12 entropy hc
    exact swapSpecial_isCodeChar (by
      rw [List.all_eq_true] at halpha
      exact halpha c hcmem)
  rw [hlen12, hall]
  decide

/-- Witness for C8 at a concrete entropy string containing both special
characters of the urlsafe alphabet. -/
theorem generated_code_matches_validator_witness :
    ("abcDEF123-_x".toList.all isUrlsafeChar = true ∧ 12 ≤ "abcDEF123-_x".toList.length) ∧
      validate_section_code (generate_section_code "abcDEF123-_x".toList) = true :=
  ⟨by decide, generated_code_matches_validator ("abcDEF123-_x".toList) (by decide) (by decide)⟩

/-! ## C5: role permission gate -/

theorem check_user_permission_eq_found (db : DB) (telegramId : Int)
    (req : Role) (u : UserRow) (hu : get_user db telegramId = some u) :
    check_user_permission db telegramId req =
      (if !u.isActive then (false, some .accountInactive)
       else if u.isBlocked then (false, some .userBlocked)
       else if u.userType = .owner then (true, none)
       else if u.userType = req then (true, none)
       else (false, some (.needRole req))) := by
  unfold check_user_permission
  rw [hu]

/-- Claim C5: `check_user_permission` denies an unknown principal with the
user-not-found reason; always denies a blocked or inactive principal with
the specific inactive / blocked reason (never the generic role denial);
allows exactly the owner (for any required role) and the exact role match;
and otherwise denies with the role-specific reason. -/
theorem check_user_permission_spec (db : DB) (telegramId : Int) (req : Role) :
    (get_user db telegramId = none →
      check_user_permission db telegramId req = (false, some .userNotFound)) ∧
    (∀ u, get_user db telegramId = some u →
      ((u.isActive = false ∨ u.isBlocked = true) →
        (check_user_permission db telegramId req).1 = false ∧
        ((check_user_permission db telegramId req).2 = some .accountInactive ∨
         (check_user_permission db telegramId req).2 = some .userBlocked)) ∧
      (u.isActive = true → u.isBlocked = false →
        (check_user_permission db telegramId req = (true, none) ↔
          (u.userType = .owner ∨ u.userType = req))) ∧
      (u.isActive = true → u.isBlocked = false → u.userType ≠ .owner →
        u.userType ≠ req →
        check_user_permission db telegramId req = (false, some (.needRole req)))) := by
  constructor
  · intro hnone
    unfold check_user_permission
    rw [hnone]
  · intro u hu
    rw [check_user_permission_eq_found db telegramId req u hu]
    refine ⟨?_, ?_, ?_⟩
    · intro hdead
      rcases hdead with hia | hbl
      · rw [if_pos (by simp [hia])]
        exact ⟨rfl, Or.inl rfl⟩
      · by_cases hia : u.isActive
        · rw [if_neg (by simp [hia]), if_pos hbl]
          exact ⟨rfl, Or.inr rfl⟩
        · rw [if_pos (by simp [Bool.eq_false_iff.mpr hia])]
          exact ⟨rfl, Or.inl rfl⟩
    · intro hact hnbl
      rw [if_neg (by simp [hact]), if_neg (by simp [hnbl])]
      constructor
      · intro heq
        by_cases how : u.userType = .owner
        · exact Or.inl how
        · rw [if_neg how] at heq
          by_cases hreq : u.userType = req
          · exact Or.inr hreq
          · rw [if_neg hreq] at heq
            cases heq
      · intro hor
        rcases hor with how | hreq
        · rw [if_pos how]
        · by_cases how : u.userType = .owner
          · rw [if_pos how]
          · rw [if_neg how, if_pos hreq]
    · intro hact hnbl hnow hnreq
      rw [if_neg (by simp [hact]), if_neg (by simp [hnbl]), if_neg hnow,
        if_neg hnreq]

/-- Witness for C5: the concrete admin of `db5` passes an admin check. -/
theorem check_user_permission_spec_witness :
    check_user_permission db5 50 .admin = (true, none) :=
  (((check_user_permission_spec db5 50 .admin).2
      ⟨1, 50, none, "Admin One".toList, .admin, true, false⟩ (by decide)).2.1
    (by decide) (by decide)).mpr (Or.inr rfl)

/-! ## C9: duplicate user creation -/

theorem create_user_dup_eval (db : DB) (telegramId : Int) (fullName : Str)
    (userType : Role) (username : Option Str) (u : UserRow)
    (htid : validate_telegram_id telegramId = true)
    (hname : (validate_full_name fullName).1 = true)
    (hu : get_user db telegramId = some u) :
    create_user db telegramId fullName userType username =
      ⟨db, false, .duplicateUser, some u.userId⟩ := by
  simp only [create_user, htid, hname, hu, Bool.not_true, Bool.false_eq_true,
    if_false]

/-- Counterexample to claim C9 as stated: telegram id 5 already has a row in
`db9.users`, yet a `create_user` call for it with an invalid (too short)
name returns the name error with a `None` user id, not the duplicate-user
message with the existing id — the input validation runs before the
duplicate check. -/
theorem create_user_duplicate_cex :
    (∃ u ∈ db9.users, u.telegramId = 5) ∧
    create_user db9 5 ("ab".toList) .student none =
      ⟨db9, false, .nameTooShort, none⟩ ∧
    Msg.nameTooShort ≠ Msg.duplicateUser := by
  decide

/-- Claim C9 (amended): for every call whose arguments pass input validation
(positive telegram id, valid full name), if the telegram id already has a
users row then `create_user` fails with the duplicate-user message, returns
the existing row's `user_id` as third component, and inserts no row. -/
theorem create_user_duplicate_noop (db : DB) (telegramId : Int)
    (fullName : Str) (userType : Role) (username : Option Str) (u : UserRow)
    (htid : validate_telegram_id telegramId = true)
    (hname : (validate_full_name fullName).1 = true)
    (hu : get_user db telegramId = some u) :
    create_user db telegramId fullName userType username =
      ⟨db, false, .duplicateUser, some u.userId⟩ :=
  create_user_dup_eval db telegramId fullName userType username u htid hname hu

/-- Witness for the amended C9 on the concrete store `db9`. -/
theorem create_user_duplicate_noop_witness :
    create_user db9 5 ("Omar Ali".toList) .student none =
      ⟨db9, false, .duplicateUser, some 1⟩ :=
  create_user_duplicate_noop db9 5 ("Omar Ali".toList) .student none
    ⟨1, 5, none, "Omar Ali".toList, .student, true, false⟩
    (by decide) (by decide) (by decide)

/-! ## C2 and C10: duplicate registration and the capacity check -/

theorem register_student_existing_eval (db : DB) (telegramId : Int)
    (fullName sectionCode : Str) (username : Option Str) (u : UserRow)
    (sec : SectionRow) (m : MemRow)
    (htid : validate_telegram_id telegramId = true)
    (hname : (validate_full_name fullName).1 = true)
    (hu : get_user db telegramId = some u)
    (hsec : get_section_by_code db sectionCode = some sec)
    (hm : db.memberships.find? (fun mm =>
        decide (mm.studentId = u.userId) && decide (mm.sectionId = sec.sectionId))
      = some m) :
    register_student db telegramId fullName sectionCode username =
      (if approved_count db sec.sectionId ≥ sec.maxStudents then
        ⟨db, false, .sectionFull⟩
      else ⟨db, false, statusMsg m.status⟩) := by
  have hcr := create_user_dup_eval db telegramId fullName .student username u
    htid hname hu
  by_cases hfull : approved_count db sec.sectionId ≥ sec.maxStudents
  · rw [if_pos hfull]
    simp only [register_student, hname, hsec, Bool.not_true, Bool.false_eq_true,
      if_false, if_pos hfull]
  · rw [if_neg hfull]
    have huid : (if ((some u.userId : Option Nat) = none ∨
          (some u.userId : Option Nat) = some 0)
        then (get_user db telegramId).map (·.userId) else some u.userId)
        = some u.userId := by
      split_ifs with h <;> simp [hu]
    simp only [register_student, hname, hsec, Bool.not_true, Bool.false_eq_true,
      if_false, if_neg hfull, hcr]
    simp only [huid, hm]
    cases m.status <;> rfl

/-- Counterexample to claim C2 as stated: in `db2` the student (telegram 10,
user 1) already holds an *approved* membership in section 1, but the section
is at capacity (`max_students` 1 and one approved row), so `register_student`
answers with the capacity-full message instead of the status-specific
"already enrolled" message — the capacity check runs first. -/
theorem register_duplicate_capacity_cex :
    (db2.memberships.find? (fun mm =>
        decide (mm.studentId = 1) && decide (mm.sectionId = 1))).isSome ∧
    register_student db2 10 ("Ali Hassan".toList) ("SEC_abcdefghijkl".toList) none =
      ⟨db2, false, .sectionFull⟩ ∧
    Msg.sectionFull ≠ Msg.alreadyEnrolled := by
  decide

/-- Claim C2 (amended): for a (student, section) pair that already has a
membership row — under valid inputs and provided the section is below
capacity (at capacity the capacity-full failure takes precedence) —
`register_student` short-circuits with the failure message specific to the
existing status (pending, approved, or rejected), and in every case it
inserts no second membership row. -/
theorem register_existing_membership (db : DB) (telegramId : Int)
    (fullName sectionCode : Str) (username : Option Str) (u : UserRow)
    (sec : SectionRow) (m : MemRow)
    (htid : validate_telegram_id telegramId = true)
    (hname : (validate_full_name fullName).1 = true)
    (hu : get_user db telegramId = some u)
    (hsec : get_section_by_code db sectionCode = some sec)
    (hm : db.memberships.find? (fun mm =>
        decide (mm.studentId = u.userId) && decide (mm.sectionId = sec.sectionId))
      = some m) :
    (approved_count db sec.sectionId < sec.maxStudents →
      register_student db telegramId fullName sectionCode username =
        ⟨db, false, statusMsg m.status⟩) ∧
    (register_student db telegramId fullName sectionCode username).db.memberships
      = db.memberships := by
  have heval := register_student_existing_eval db telegramId fullName sectionCode
    username u sec m htid hname hu hsec hm
  constructor
  · intro hlt
    rw [heval, if_neg (by omega)]
  · rw [heval]
    by_cases hfull : approved_count db sec.sectionId ≥ sec.maxStudents
    · rw [if_pos hfull]
    · rw [if_neg hfull]

/-- Witness for the amended C2 on `db2w`: a pending membership in a
below-capacity section answers "already pending". -/
theorem register_existing_membership_witness :
    register_student db2w 10 ("Ali Hassan".toList) ("SEC_abcdefghijkl".toList) none =
      ⟨db2w, false, .alreadyPending⟩ :=
  (register_existing_membership db2w 10 ("Ali Hassan".toList)
      ("SEC_abcdefghijkl".toList) none
      ⟨1, 10, none, "Ali Hassan".toList, .student, true, false⟩
      ⟨1, "المرحلة الأولى - صباحي - شعبة A".toList, 1, some 2, "SEC_abcdefghijkl".toList, 5, true⟩
      ⟨1, 1, .pending, false, none, true⟩
      (by decide) (by decide) (by decide) (by decide) (by decide)).1 (by decide)

/-- Claim C10: the capacity check is evaluated before the duplicate-
membership check — a student who already holds a membership in a section
whose approved count has reached `max_students` gets the capacity-full
message, not the status-specific duplicate message. -/
theorem capacity_check_precedes_duplicate (db : DB) (telegramId : Int)
    (fullName sectionCode : Str) (username : Option Str) (u : UserRow)
    (sec : SectionRow) (m : MemRow)
    (htid : validate_telegram_id telegramId = true)
    (hname : (validate_full_name fullName).1 = true)
    (hu : get_user db telegramId = some u)
    (hsec : get_section_by_code db sectionCode = some sec)
    (hm : db.memberships.find? (fun mm =>
        decide (mm.studentId = u.userId) && decide (mm.sectionId = sec.sectionId))
      = some m)
    (hfull : approved_count db sec.sectionId ≥ sec.maxStudents) :
    register_student db telegramId fullName sectionCode username =
      ⟨db, false, .sectionFull⟩ := by
  rw [register_student_existing_eval db telegramId fullName sectionCode username
    u sec m htid hname hu hsec hm, if_pos hfull]

/-- Witness for C10 on `db2`: the approved-at-capacity student is told the
section is full, not that they are already enrolled. -/
theorem capacity_check_precedes_duplicate_witness :
    register_student db2 10 ("Hassan Ali".toList) ("SEC_abcdefghijkl".toList) none =
      ⟨db2, false, .sectionFull⟩ :=
  capacity_check_precedes_duplicate db2 10 ("Hassan Ali".toList)
    ("SEC_abcdefghijkl".toList) none
    ⟨1, 10, none, "Ali Hassan".toList, .student, true, false⟩
    ⟨1, "المرحلة الأولى - صباحي - شعبة A".toList, 1, some 1, "SEC_abcdefghijkl".toList, 1, true⟩
    ⟨1, 1, .approved, true, some 1, true⟩
    (by decide) (by decide) (by decide) (by decide) (by decide) (by decide)

/-! ## C3: approval and rejection act only on pending memberships -/

theorem filter_pendingMatch_nil {db : DB} {sid secId : Nat}
    (hnone : ∀ mm ∈ db.memberships, mm.studentId = sid → mm.sectionId = secId →
      mm.status ≠ .pending) :
    db.memberships.filter (pendingMatch sid secId) = [] := by
  rw [List.filter_eq_nil_iff]
  intro mm hmm hc
  simp only [pendingMatch, Bool.and_eq_true, decide_eq_true_eq] at hc
  exact hnone mm hmm hc.1.1 hc.1.2 hc.2

theorem pendingMatch_false_of_nonpending {sid secId : Nat} {mm : MemRow}
    (hnp : mm.status ≠ .pending) : pendingMatch sid secId mm = false := by
  simp [pendingMatch, hnp]

theorem mem_map_of_fix {α : Type} {l : List α} {f : α → α} {x : α}
    (hmm : x ∈ l) (hfx : f x = x) : x ∈ l.map f := by
  rw [List.mem_map]
  exact ⟨x, hmm, hfx⟩

/-- Claim C3: `approve_student` and `reject_student` transition a membership
only while it is pending: when every membership of the (student, section)
pair is non-pending, a permitted call fails with the already-processed
message and leaves the store unchanged; and in any call whatsoever a
non-pending membership row survives unmodified. -/
theorem approve_reject_nonpending_noop (db : DB) (adminTelegramId
    studentTelegramId : Int) (sectionId : Nat) :
    (∀ adminRow studentRow, get_user db adminTelegramId = some adminRow →
      get_user db studentTelegramId = some studentRow →
      (check_admin_section_permission db adminTelegramId sectionId).1 = true →
      (∀ mm ∈ db.memberships, mm.studentId = studentRow.userId →
        mm.sectionId = sectionId → mm.status ≠ .pending) →
      approve_student db adminTelegramId studentTelegramId sectionId =
        ⟨db, false, .alreadyProcessed⟩ ∧
      reject_student db adminTelegramId studentTelegramId sectionId =
        ⟨db, false, .alreadyProcessed⟩) ∧
    (∀ mm ∈ db.memberships, mm.status ≠ .pending →
      mm ∈ (approve_student db adminTelegramId studentTelegramId sectionId).db.memberships ∧
      mm ∈ (reject_student db adminTelegramId studentTelegramId sectionId).db.memberships) := by
  constructor
  · intro adminRow studentRow ha hs hperm hnone
    have hfil := @filter_pendingMatch_nil db studentRow.userId sectionId hnone
    constructor
    · simp only [approve_student, hperm, Bool.not_true, Bool.false_eq_true,
        if_false, ha, hs, hfil, List.length_nil]
      rw [if_pos trivial]
    · simp only [reject_student, hperm, Bool.not_true, Bool.false_eq_true,
        if_false, ha, hs, hfil, List.length_nil]
      rw [if_pos trivial]
  · intro mm hmm hnp
    constructor
    · simp only [approve_student]
      split
      · exact hmm
      · split
        · exact hmm
        · split
          · exact hmm
          · split
            · exact hmm
            · exact mem_map_of_fix hmm
                (by rw [if_neg (by simp [pendingMatch_false_of_nonpending hnp])])
    · simp only [reject_student]
      split
      · exact hmm
      · split
        · exact hmm
        · split
          · exact hmm
          · split
            · exact hmm
            · exact mem_map_of_fix hmm
                (by rw [if_neg (by simp [pendingMatch_false_of_nonpending hnp])])

/-- Witness for C3: the admin's second tap on the already-approved request
in `db3` is reported as already processed by both actions. -/
theorem approve_reject_nonpending_noop_witness :
    approve_student db3 100 200 1 = ⟨db3, false, .alreadyProcessed⟩ ∧
    reject_student db3 100 200 1 = ⟨db3, false, .alreadyProcessed⟩ :=
  (approve_reject_nonpending_noop db3 100 200 1).1
    ⟨1, 100, none, "Admin One".toList, .admin, true, false⟩
    ⟨2, 200, none, "Ali Hassan".toList, .student, true, false⟩
    (by decide) (by decide) (by decide) (by decide)

/-! ## C6: entry gate of the registration flow -/

/-- Claim C6: `handle_registration_link` creates a registration session (the
`waiting_for_name` state with the join code stored in the data bag) exactly
when the code resolves to an active section and the requester does not
already hold role owner or admin; in every other case the previous session
slot is untouched and the reply is a rejection, not the name prompt. -/
theorem registration_link_gate (db : DB) (session : Option Session)
    (telegramId : Int) (code : Str) :
    (((get_section_by_code db code).isSome ∧ link_refused_role db telegramId = false) ↔
      ∃ s : Session,
        handle_registration_link db session telegramId code = ⟨some s, .promptForName⟩ ∧
        s.state = .waiting_for_name ∧ s.data.section_code = some code) ∧
    (¬((get_section_by_code db code).isSome ∧ link_refused_role db telegramId = false) →
      (handle_registration_link db session telegramId code).session = session ∧
      (handle_registration_link db session telegramId code).outcome ≠ .promptForName) := by
  cases hsec : get_section_by_code db code with
  | none =>
    refine ⟨⟨fun h => absurd h.1 (by simp [hsec]), fun ⟨s, hs, _⟩ => ?_⟩, fun _ => ?_⟩
    · simp only [handle_registration_link, hsec] at hs
      simp at hs
    · simp only [handle_registration_link, hsec]
      exact ⟨by simp, by decide⟩
  | some sec =>
    cases hu : get_user db telegramId with
    | none =>
      have hrun : handle_registration_link db session telegramId code =
          ⟨some ⟨.waiting_for_name,
            { (session.map (·.data)).getD emptyData with
                section_code := some code, section_name := some sec.sectionName }⟩,
            .promptForName⟩ := by
        rw [handle_registration_link, hsec, hu]
      refine ⟨⟨fun _ => ⟨_, hrun, rfl, rfl⟩, fun _ => ?_⟩, fun hneg => ?_⟩
      · exact ⟨by simp [hsec], by simp [link_refused_role, hu]⟩
      · exact absurd ⟨by simp [hsec], by simp [link_refused_role, hu]⟩ hneg
    | some u =>
      by_cases hrole : u.userType = .owner ∨ u.userType = .admin
      · have hrun : handle_registration_link db session telegramId code =
            ⟨session, .roleRefused u.userType⟩ := by
          simp only [handle_registration_link, hsec, hu, if_pos hrole]
        have hrr : link_refused_role db telegramId = true := by
          simp only [link_refused_role, hu]
          rcases hrole with h | h <;> simp [h]
        refine ⟨⟨fun h => ?_, fun ⟨s, hs, _⟩ => ?_⟩, fun _ => ?_⟩
        · rw [hrr] at h; cases h.2
        · rw [hrun] at hs
          simp at hs
        · rw [hrun]
          exact ⟨rfl, by intro hc; cases hc⟩
      · have hrun : handle_registration_link db session telegramId code =
            ⟨some ⟨.waiting_for_name,
              { (session.map (·.data)).getD emptyData with
                  section_code := some code, section_name := some sec.sectionName }⟩,
              .promptForName⟩ := by
          simp only [handle_registration_link, hsec, hu, if_neg hrole]
        have hrr : link_refused_role db telegramId = false := by
          simp only [link_refused_role, hu]
          push_neg at hrole
          simp [hrole.1, hrole.2]
        refine ⟨⟨fun _ => ⟨_, hrun, rfl, rfl⟩, fun _ => ?_⟩, fun hneg => ?_⟩
        · exact ⟨by simp [hsec], hrr⟩
        · exact absurd ⟨by simp [hsec], hrr⟩ hneg

/-- Witness for C6: in `db6` (active section, unknown requester) the
session is created in `waiting_for_name` holding the submitted code. -/
theorem registration_link_gate_witness :
    ∃ s : Session,
      handle_registration_link db6 none 10 ("SEC_abcdefghijkl".toList) =
        ⟨some s, .promptForName⟩ ∧
      s.state = .waiting_for_name ∧
      s.data.section_code = some ("SEC_abcdefghijkl".toList) :=
  (registration_link_gate db6 none 10 ("SEC_abcdefghijkl".toList)).1.mp
    ⟨by decide, by decide⟩

/-! ## C4: invalid input never advances or corrupts a session -/

/-- Claim C4: on input failing the current step's validation — a name whose
stripped form fails `validate_full_name` in `waiting_for_name`, or (apart
from the cancel sentinel) a non-numeric, non-positive, or owner-self admin
id in `create_section_admin` — the handler re-prompts and both the session
state and the stored data bag are returned unchanged, and the store is
untouched. -/
theorem invalid_input_preserves_session (db : DB) (session : Session)
    (telegramId : Int) (username : Option Str) (text : Str) :
    ((validate_full_name (trimL text)).1 = false →
      handle_student_name db session telegramId username text =
        ⟨db, some session,
          .reprompt ((validate_full_name (trimL text)).2.getD .nameEmpty)⟩) ∧
    (trimL text ≠ cancelText →
      (pyIsDigit (trimL text) = false ∨
       validate_telegram_id ((digitsToNat (trimL text) : Nat) : Int) = false ∨
       ((digitsToNat (trimL text) : Nat) : Int) = telegramId) →
      (handle_section_admin_input db session telegramId text).db = db ∧
      (handle_section_admin_input db session telegramId text).session = some session ∧
      ((handle_section_admin_input db session telegramId text).outcome = .repromptNotDigit ∨
       (handle_section_admin_input db session telegramId text).outcome = .repromptInvalidId ∨
       (handle_section_admin_input db session telegramId text).outcome = .repromptSelf)) := by
  constructor
  · intro hinv
    rw [handle_student_name]
    rw [if_pos (by simp [hinv])]
  · intro hnc hbad
    rw [handle_section_admin_input, if_neg hnc]
    by_cases hnd : pyIsDigit (trimL text)
    · rw [if_neg (by simp [hnd])]
      by_cases hval : validate_telegram_id ((digitsToNat (trimL text) : Nat) : Int)
      · rw [if_neg (by simp [hval])]
        by_cases hself : ((digitsToNat (trimL text) : Nat) : Int) = telegramId
        · rw [if_pos hself]
          exact ⟨rfl, rfl, Or.inr (Or.inr rfl)⟩
        · rcases hbad with h | h | h
          · rw [hnd] at h; cases h
          · rw [hval] at h; cases h
          · exact absurd h hself
      · rw [if_pos (by simp [Bool.eq_false_iff.mpr hval])]
        exact ⟨rfl, rfl, Or.inr (Or.inl rfl)⟩
    · rw [if_pos (by simp [Bool.eq_false_iff.mpr hnd])]
      exact ⟨rfl, rfl, Or.inl rfl⟩

/-- Witness for C4: a too-short name re-prompts in `waiting_for_name`, and
the digit string "0" re-prompts in `create_section_admin`, both leaving the
empty-store session untouched. -/
theorem invalid_input_preserves_session_witness :
    (handle_student_name db0 ⟨.waiting_for_name, emptyData⟩ 10 none ("ab".toList) =
      ⟨db0, some ⟨.waiting_for_name, emptyData⟩, .reprompt .nameTooShort⟩) ∧
    ((handle_section_admin_input db0 ⟨.create_section_admin, emptyData⟩ 10 ("0".toList)).db = db0 ∧
     (handle_section_admin_input db0 ⟨.create_section_admin, emptyData⟩ 10 ("0".toList)).session
        = some ⟨.create_section_admin, emptyData⟩ ∧
     ((handle_section_admin_input db0 ⟨.create_section_admin, emptyData⟩ 10 ("0".toList)).outcome
          = .repromptNotDigit ∨
      (handle_section_admin_input db0 ⟨.create_section_admin, emptyData⟩ 10 ("0".toList)).outcome
          = .repromptInvalidId ∨
      (handle_section_admin_input db0 ⟨.create_section_admin, emptyData⟩ 10 ("0".toList)).outcome
          = .repromptSelf)) :=
  ⟨(invalid_input_preserves_session db0 ⟨.waiting_for_name, emptyData⟩ 10 none
      ("ab".toList)).1 (by decide),
   (invalid_input_preserves_session db0 ⟨.create_section_admin, emptyData⟩ 10 none
      ("0".toList)).2 (by decide) (Or.inr (Or.inl (by decide)))⟩

/-! ## C1: dispatch accounting is complete -/

theorem notifyLoop_spec (transport : Int → SendOutcome) (assignmentId : Nat)
    (ntype : Str) :
    ∀ (students : List UserRow) (db : DB) (s f b : Nat),
      (∀ st ∈ students, ∃ u ∈ db.users, u.telegramId = st.telegramId) →
      (notifyLoop transport assignmentId ntype db students s f b).sent +
        (notifyLoop transport assignmentId ntype db students s f b).failed +
        (notifyLoop transport assignmentId ntype db students s f b).blocked =
          s + f + b + students.length ∧
      (notifyLoop transport assignmentId ntype db students s f b).db.users = db.users ∧
      (notifyLoop transport assignmentId ntype db students s f b).db.notifications =
        db.notifications ++
          students.map (recordFor db.users assignmentId ntype transport) := by
  intro students
  induction students with
  | nil =>
    intro db s f b _
    simp [notifyLoop]
  | cons st rest ih =>
    intro db s f b hmem
    obtain ⟨u, hu, htid⟩ := hmem st (by simp)
    have hfind : (db.users.find? (fun v => decide (v.telegramId = st.telegramId))).isSome := by
      rw [List.find?_isSome]
      exact ⟨u, hu, by simp [htid]⟩
    obtain ⟨w, hw⟩ := Option.isSome_iff_exists.mp hfind
    have hlog : ∀ ds, log_notification db assignmentId st.telegramId ntype ds =
        ⟨{ db with notifications :=
            db.notifications ++ [⟨assignmentId, w.userId, ntype, ds⟩] },
          true, .notifLogged⟩ := by
      intro ds
      simp only [log_notification, get_user, hw]
    have hrec : recordFor db.users assignmentId ntype transport st =
        ⟨assignmentId, w.userId, ntype, classifyOutcome (transport st.telegramId)⟩ := by
      simp only [recordFor, hw]
      rfl
    cases hout : transport st.telegramId with
    | ok =>
      have hstep : notifyLoop transport assignmentId ntype db (st :: rest) s f b =
          notifyLoop transport assignmentId ntype
            { db with notifications :=
                db.notifications ++ [⟨assignmentId, w.userId, ntype, .sent⟩] }
            rest (s + 1) f b := by
        simp only [notifyLoop, hout, hlog]
      obtain ⟨hcount, husers, hnotif⟩ := ih
        { db with notifications :=
            db.notifications ++ [⟨assignmentId, w.userId, ntype, .sent⟩] }
        (s + 1) f b (fun st' hst' => hmem st' (List.mem_cons_of_mem _ hst'))
      rw [hstep]
      refine ⟨by rw [hcount]; simp; omega, husers, ?_⟩
      rw [hnotif]
      simp only [List.map_cons, hrec, hout, classifyOutcome]
      rw [List.append_assoc]
      rfl
    | errBlocked =>
      have hstep : notifyLoop transport assignmentId ntype db (st :: rest) s f b =
          notifyLoop transport assignmentId ntype
            { db with notifications :=
                db.notifications ++ [⟨assignmentId, w.userId, ntype, .blocked⟩] }
            rest s f (b + 1) := by
        simp only [notifyLoop, hout, hlog]
      obtain ⟨hcount, husers, hnotif⟩ := ih
        { db with notifications :=
            db.notifications ++ [⟨assignmentId, w.userId, ntype, .blocked⟩] }
        s f (b + 1) (fun st' hst' => hmem st' (List.mem_cons_of_mem _ hst'))
      rw [hstep]
      refine ⟨by rw [hcount]; simp; omega, husers, ?_⟩
      rw [hnotif]
      simp only [List.map_cons, hrec, hout, classifyOutcome]
      rw [List.append_assoc]
      rfl
    | errOther =>
      have hstep : notifyLoop transport assignmentId ntype db (st :: rest) s f b =
          notifyLoop transport assignmentId ntype
            { db with notifications :=
                db.notifications ++ [⟨assignmentId, w.userId, ntype, .failed⟩] }
            rest s (f + 1) b := by
        simp only [notifyLoop, hout, hlog]
      obtain ⟨hcount, husers, hnotif⟩ := ih
        { db with notifications :=
            db.notifications ++ [⟨assignmentId, w.userId, ntype, .failed⟩] }
        s (f + 1) b (fun st' hst' => hmem st' (List.mem_cons_of_mem _ hst'))
      rw [hstep]
      refine ⟨by rw [hcount]; simp; omega, husers, ?_⟩
      rw [hnotif]
      simp only [List.map_cons, hrec, hout, classifyOutcome]
      rw [List.append_assoc]
      rfl

theorem approved_student_has_user_row (db : DB) (sectionId : Nat) :
    ∀ st ∈ get_approved_students db sectionId,
      ∃ u ∈ db.users, u.telegramId = st.telegramId := by
  intro st hst
  simp only [get_approved_students, List.mem_filterMap] at hst
  obtain ⟨m, _, hsome⟩ := hst
  by_cases hcond : (decide (m.sectionId = sectionId)
      && decide (m.status = RegStatus.approved) && m.isActive) = true
  · rw [if_pos hcond] at hsome
    cases hfindu : db.users.find? (fun u => decide (u.userId = m.studentId)) with
    | none =>
      simp only [hfindu] at hsome
      cases hsome
    | some u0 =>
      simp only [hfindu] at hsome
      by_cases hbl : (!u0.isBlocked) = true
      · rw [if_pos hbl] at hsome
        have : u0 = st := Option.some.inj hsome
        subst this
        exact ⟨u0, List.mem_of_find?_eq_some hfindu, rfl⟩
      · rw [if_neg hbl] at hsome; cases hsome
  · rw [if_neg hcond] at hsome; cases hsome

/-- Claim C1: on a resolvable assignment, a dispatch run's counts satisfy
`sent + failed + blocked = recipientCount` for the enumerated recipients
(the approved, non-blocked, membership-active members of the section), and
the notification log grows by exactly one record per recipient —
one record per delivery attempt, whatever its outcome. -/
theorem dispatch_accounting_complete (db : DB) (transport : Int → SendOutcome)
    (assignmentId sectionId : Nat) (ntype : Str)
    (hres : (db.assignments.find? (fun a => decide (a.assignmentId = assignmentId))).isSome) :
    (send_assignment_notifications db transport assignmentId sectionId ntype).sent +
      (send_assignment_notifications db transport assignmentId sectionId ntype).failed +
      (send_assignment_notifications db transport assignmentId sectionId ntype).blocked =
        (get_approved_students db sectionId).length ∧
    (send_assignment_notifications db transport assignmentId sectionId ntype).db.notifications =
      db.notifications ++
        (get_approved_students db sectionId).map
          (recordFor db.users assignmentId ntype transport) := by
  obtain ⟨a, ha⟩ := Option.isSome_iff_exists.mp hres
  by_cases hemp : get_approved_students db sectionId = []
  · simp only [send_assignment_notifications, ha, hemp]
    simp
  · have hloop := notifyLoop_spec transport assignmentId ntype
      (get_approved_students db sectionId) db 0 0 0
      (approved_student_has_user_row db sectionId)
    have hrun : send_assignment_notifications db transport assignmentId sectionId ntype =
        notifyLoop transport assignmentId ntype db
          (get_approved_students db sectionId) 0 0 0 := by
      simp only [send_assignment_notifications, ha, if_neg hemp]
    rw [hrun]
    exact ⟨by rw [hloop.1]; simp, hloop.2.2⟩

/-- Witness for C1: dispatching assignment 7 of `db1` to section 3 over an
all-successful transport accounts for its single recipient and appends one
notification record. -/
theorem dispatch_accounting_complete_witness :
    ((db1.assignments.find? (fun a => decide (a.assignmentId = 7))).isSome = true) ∧
    ((send_assignment_notifications db1 okTransport 7 3 ("new".toList)).sent +
        (send_assignment_notifications db1 okTransport 7 3 ("new".toList)).failed +
        (send_assignment_notifications db1 okTransport 7 3 ("new".toList)).blocked =
          (get_approved_students db1 3).length ∧
      (send_assignment_notifications db1 okTransport 7 3 ("new".toList)).db.notifications =
        db1.notifications ++
          (get_approved_students db1 3).map (recordFor db1.users 7 ("new".toList) okTransport)) :=
  ⟨by decide, dispatch_accounting_complete db1 okTransport 7 3 ("new".toList) (by decide)⟩

end DrsBot
